import Mathlib

/-!
Verification of the OpenClaw service worker (src/sw.js): a shallow embedding
of its request routing and caching strategy engine, with theorems about the
three strategy executors, the install-time precache, the activate-time
cutover, and the CACHE_URLS message handler.

The Cache Storage API is modelled as an association list of named stores,
each an association list from request URL to stored response. The network is
an oracle: each strategy executor takes the outcome the fetch for its request
would have (a response of arbitrary status, or a thrown network error), which
makes the executors pure functions of (cache state, request, outcome).
-/

namespace SW

/-- A fetch-API response: status, declared Content-Type header, body text.
`Response.ok` mirrors the fetch spec: status in the range 200..299. -/
structure Response where
  status : Nat
  contentType : Option String
  body : String
deriving DecidableEq, Repr

def Response.ok (r : Response) : Bool :=
  decide (200 ≤ r.status) && decide (r.status ≤ 299)

/-- The outcome a network fetch would have for a given request: a response
(of any status; the fetch API never throws for non-2xx) or a thrown network
error (connectivity failure). -/
inductive FetchOutcome where
  | success (r : Response)
  | networkError
deriving DecidableEq, Repr

/-- One named cache: request URL to stored response; first match wins, so
`put` is modelled by prepending. -/
abbrev Store := List (String × Response)

/-- The Cache Storage state: named stores in creation order. -/
abbrev CacheState := List (String × Store)

def CACHE_NAME : String := "openclaw-v2"
def RUNTIME_CACHE : String := "openclaw-runtime-v2"

def PRECACHE_URLS : List String :=
  [ "/"
  , "/index.html"
  , "/static/js/main.chunk.js"
  , "/static/js/bundle.js"
  , "/manifest.json"
  , "https://fonts.googleapis.com/css2?family=Space+Mono:ital,wght@0,400;0,700;1,400&family=Syne:wght@400;600;700;800&display=swap"
  ]

/-- The cache.match lookup on one named cache. -/
def storeMatch : Store → String → Option Response
  | [], _ => none
  | (k, r) :: rest, key => if k = key then some r else storeMatch rest key

/-- The global caches.match lookup: search every store in creation order. -/
def cachesMatch : CacheState → String → Option Response
  | [], _ => none
  | (_, es) :: rest, key =>
    match storeMatch es key with
    | some r => some r
    | none => cachesMatch rest key

/-- The read side of caches.open(name): the entries of the named store ([]
if the store does not exist yet). -/
def openCache : CacheState → String → Store
  | [], _ => []
  | (n, es) :: rest, name => if n = name then es else openCache rest name

/-- Replace (or create) the named store wholesale. -/
def setCache : CacheState → String → Store → CacheState
  | [], name, es => [(name, es)]
  | (n, e) :: rest, name, es =>
    if n = name then (n, es) :: rest else (n, e) :: setCache rest name es

/-- A caches.open(name) followed by cache.put(request, response). -/
def cachePut : CacheState → String → String → Response → CacheState
  | [], name, key, r => [(name, [(key, r)])]
  | (n, es) :: rest, name, key, r =>
    if n = name then (n, (key, r) :: es) :: rest
    else (n, es) :: cachePut rest name key r

/-- Does the char list start with the needle? -/
def leadsWith : List Char → List Char → Bool
  | [], _ => true
  | _ :: _, [] => false
  | a :: as, b :: bs => a == b && leadsWith as bs

/-- Does the needle occur as a contiguous run of the haystack? -/
def containsSeq (needle : List Char) : List Char → Bool
  | [] => needle.isEmpty
  | c :: rest => leadsWith needle (c :: rest) || containsSeq needle rest

def strLeads (s p : String) : Bool := leadsWith p.data s.data
def strTrails (s p : String) : Bool := leadsWith p.data.reverse s.data.reverse
def strHas (s p : String) : Bool := containsSeq p.data s.data

/-- The routing decision of the fetch handler. `bypass` is the sentinel for
requests the worker does not intercept at all. -/
inductive StrategyClass where
  | bypass
  | font
  | document
  | staticAsset
  | default
deriving DecidableEq, Repr

/-- The parts of a request the fetch handler inspects: the full URL string,
the parsed hostname and pathname, and the Accept header if present. -/
structure Request where
  url : String
  hostname : String
  pathname : String
  accept : Option String
deriving DecidableEq, Repr

/-- Top-down classification by the fetch handler (src/sw.js lines 51-81):
bypass api.anthropic.com and non-http schemes, fonts are cache-first,
Accept containing text/html is a document, .js/.css paths are
stale-while-revalidate, everything else is the default class. -/
def classify (req : Request) : StrategyClass :=
  if req.hostname = "api.anthropic.com" then .bypass
  else if !(strLeads req.url "http") then .bypass
  else if req.hostname = "fonts.googleapis.com" || req.hostname = "fonts.gstatic.com" then .font
  else if (match req.accept with
           | some a => strHas a "text/html"
           | none => false) then .document
  else if strTrails req.pathname ".js" || strTrails req.pathname ".css" then .staticAsset
  else .default

/-- Default Content-Type the Response constructor gives a plain string body. -/
def textPlainContentType : String := "text/plain;charset=UTF-8"

/-- cacheFirst catch branch: new Response("Offline", status 503). -/
def cacheFirstOffline : Response :=
  { status := 503, contentType := some textPlainContentType, body := "Offline" }

/-- staleWhileRevalidate last resort: new Response("", status 503). -/
def swrUnavailable : Response :=
  { status := 503, contentType := some textPlainContentType, body := "" }

/-- The offline fallback document generated by offlinePage() in src/sw.js,
verbatim (braces written as \x7b and \x7d, the apostrophe as \x27). -/
def offlinePage : String :=
  "<!DOCTYPE html>\n<html>\n<head>\n  <meta charset=\"utf-8\">\n  <meta name=\"viewport\" content=\"width=device-width, initial-scale=1\">\n  <title>OpenClaw AI — Offline</title>\n  <style>\n    body \x7b background: #080C10; color: #E6EDF3; font-family: sans-serif;\n           display: flex; align-items: center; justify-content: center;\n           height: 100vh; margin: 0; text-align: center; \x7d\n    .icon \x7b font-size: 64px; margin-bottom: 16px; \x7d\n    h1 \x7b font-size: 22px; margin: 0 0 8px; \x7d\n    p \x7b color: #7D8590; font-size: 14px; \x7d\n  </style>\n</head>\n<body>\n  <div>\n    <div class=\"icon\">🦾</div>\n    <h1>You\x27re offline</h1>\n    <p>OpenClaw needs a connection to reach the AI.<br>Check your network and try again.</p>\n  </div>\n</body>\n</html>"

/-- new Response(offlinePage(), headers Content-Type text/html): status
defaults to 200. -/
def offlinePageResponse : Response :=
  { status := 200, contentType := some "text/html", body := offlinePage }

/-- What one strategy execution produces: the response handed to the caller,
the cache state afterwards, and how many network fetches were issued. -/
structure StrategyResult where
  response : Response
  state : CacheState
  networkCalls : Nat
deriving DecidableEq, Repr

/-- cacheFirst (src/sw.js lines 85-98): global caches.match first; on hit
return it with no fetch; on miss fetch, store a clone only when response.ok,
return the response whatever its status; a thrown fetch becomes the
synthesized 503 "Offline" response. -/
def cacheFirst (cs : CacheState) (cacheName url : String) (netw : FetchOutcome) :
    StrategyResult :=
  match cachesMatch cs url with
  | some cached => ⟨cached, cs, 0⟩
  | none =>
    match netw with
    | .success r => ⟨r, if r.ok then cachePut cs cacheName url r else cs, 1⟩
    | .networkError => ⟨cacheFirstOffline, cs, 1⟩

/-- networkFirst (src/sw.js lines 100-117): fetch; on a response (any
status) store a clone only when response.ok and return it; on a thrown
fetch fall back to caches.match(request), then caches.match("/"), then the
generated offline page. -/
def networkFirst (cs : CacheState) (cacheName url : String) (netw : FetchOutcome) :
    StrategyResult :=
  match netw with
  | .success r => ⟨r, if r.ok then cachePut cs cacheName url r else cs, 1⟩
  | .networkError =>
    match cachesMatch cs url with
    | some cached => ⟨cached, cs, 1⟩
    | none =>
      match cachesMatch cs "/" with
      | some offlineFallback => ⟨offlineFallback, cs, 1⟩
      | none => ⟨offlinePageResponse, cs, 1⟩

/-- staleWhileRevalidate (src/sw.js lines 119-127): match in the named
cache; always start a fetch whose ok responses update the cache; return the
cached entry if present, else the network response (any status), else an
empty 503. -/
def staleWhileRevalidate (cs : CacheState) (cacheName url : String)
    (netw : FetchOutcome) : StrategyResult :=
  let cached := storeMatch (openCache cs cacheName) url
  let revalidated :=
    match netw with
    | .success r => if r.ok then cachePut cs cacheName url r else cs
    | .networkError => cs
  let networkResult : Option Response :=
    match netw with
    | .success r => some r
    | .networkError => none
  match cached with
  | some c => ⟨c, revalidated, 1⟩
  | none =>
    match networkResult with
    | some r => ⟨r, revalidated, 1⟩
    | none => ⟨swrUnavailable, revalidated, 1⟩

/-- The fetch handler: classify, then dispatch to the executor and store the
source wires up (fonts and documents to CACHE_NAME, the rest to
RUNTIME_CACHE); bypass requests are not intercepted. -/
def routeFetch (req : Request) (cs : CacheState) (netw : FetchOutcome) :
    Option StrategyResult :=
  match classify req with
  | .bypass => none
  | .font => some (cacheFirst cs CACHE_NAME req.url netw)
  | .document => some (networkFirst cs CACHE_NAME req.url netw)
  | .staticAsset => some (staleWhileRevalidate cs RUNTIME_CACHE req.url netw)
  | .default => some (networkFirst cs RUNTIME_CACHE req.url netw)

/-- Cache.add(url): per the Cache API, fetch the URL and put the response
only when it is ok; a network error or a non-ok response rejects. -/
def cacheAdd (store : Store) (url : String) (out : FetchOutcome) :
    Except Unit Store :=
  match out with
  | .success r => if r.ok then .ok ((url, r) :: store) else .error ()
  | .networkError => .error ()

/-- The per-URL loop of the install handler (src/sw.js lines 25-29): each
URL is added
with its own .catch, so a rejected add leaves the store as it was and the
remaining URLs are still attempted. -/
def precacheLoop (oracle : String → FetchOutcome) : Store → List String → Store
  | store, [] => store
  | store, url :: rest =>
    match cacheAdd store url (oracle url) with
    | .ok s => precacheLoop oracle s rest
    | .error _ => precacheLoop oracle store rest

structure InstallResult where
  state : CacheState
  skipWaitingSignalled : Bool
deriving DecidableEq, Repr

/-- The install handler (src/sw.js lines 20-32): open CACHE_NAME, run the
per-URL precache loop under Promise.allSettled (which never rejects), then
call skipWaiting. -/
def precacheOp (cs : CacheState) (oracle : String → FetchOutcome)
    (urls : List String) : InstallResult :=
  ⟨setCache cs CACHE_NAME (precacheLoop oracle (openCache cs CACHE_NAME) urls), true⟩

def installHandler (cs : CacheState) (oracle : String → FetchOutcome) :
    InstallResult :=
  precacheOp cs oracle PRECACHE_URLS

/-- The delete predicate of the activate handler (src/sw.js line 40): a store is
deleted iff its name is neither CACHE_NAME nor RUNTIME_CACHE. -/
def staleName (n : String) : Bool :=
  !(n == CACHE_NAME) && !(n == RUNTIME_CACHE)

structure ActivateResult where
  deleted : List String
  state : CacheState
  claimed : Bool
deriving DecidableEq, Repr

/-- The activate handler (src/sw.js lines 35-48): list cache names, delete
every stale-named one, then clients.claim(). -/
def activateHandler (cs : CacheState) : ActivateResult :=
  ⟨(cs.map Prod.fst).filter staleName,
   cs.filter (fun p => !(staleName p.1)),
   true⟩

/-- Does this outcome make a Cache.add / Cache.addAll entry fail? -/
def fetchFails : FetchOutcome → Bool
  | .success r => !r.ok
  | .networkError => true

/-- The fetch phase of Cache.addAll: all URLs must yield ok responses or the
whole batch rejects with nothing to store. -/
def cacheAddAllFetch (oracle : String → FetchOutcome) :
    List String → Option (List (String × Response))
  | [] => some []
  | u :: rest =>
    match oracle u with
    | .success r =>
      if r.ok then
        match cacheAddAllFetch oracle rest with
        | some ps => some ((u, r) :: ps)
        | none => none
      else none
    | .networkError => none

/-- Cache.addAll(urls): atomic batch; on success every fetched pair is put
(later puts shadow earlier ones), on any failure nothing is stored. -/
def cacheAddAll (es : Store) (oracle : String → FetchOutcome)
    (urls : List String) : Option Store :=
  match cacheAddAllFetch oracle urls with
  | some ps => some (ps.foldl (fun s q => q :: s) es)
  | none => none

/-- The CACHE_URLS message handler (src/sw.js lines 194-196):
caches.open(RUNTIME_CACHE).then(cache => cache.addAll(urls)); the rejection
of addAll is unhandled, so a failed batch leaves the state unchanged. -/
def handleCacheUrls (cs : CacheState) (oracle : String → FetchOutcome)
    (urls : List String) : CacheState :=
  match cacheAddAll (openCache cs RUNTIME_CACHE) oracle urls with
  | some es => setCache cs RUNTIME_CACHE es
  | none => cs

/-- A document is self-contained when it references no external resource:
no src= or href= attributes, no link or script elements, no CSS url(...). -/
def noExternalRefs (s : String) : Bool :=
  !(strHas s "src=") && !(strHas s "href=") && !(strHas s "<link") &&
  !(strHas s "<script") && !(strHas s "url(")

/-- Every response held anywhere in the cache state is a 2xx. All write
paths of the worker maintain this. -/
def storeAllOk (cs : CacheState) : Prop :=
  ∀ p ∈ cs, ∀ q ∈ p.2, Response.ok q.2 = true

/-! Concrete instances used to evaluate the model on explicit inputs. -/

/-- A successful stylesheet response. -/
def respOkA : Response :=
  { status := 200, contentType := some "text/css", body := "body-a" }

/-- A successful script response. -/
def respOkB : Response :=
  { status := 200, contentType := some "text/javascript", body := "body-b" }

/-- A non-2xx network response: the server answered 404. -/
def resp404 : Response :=
  { status := 404, contentType := some textPlainContentType, body := "Not Found" }

/-- A successful but non-HTML response, as a server could return for "/". -/
def jsonRootResponse : Response :=
  { status := 200, contentType := some "application/json", body := "null" }

/-- A document-classified request: Accept mentions text/html. -/
def reqDocument : Request :=
  { url := "http://example.com/page", hostname := "example.com"
  , pathname := "/page", accept := some "text/html" }

/-- A default-classified request: no Accept header, no .js/.css path. -/
def reqDataDefault : Request :=
  { url := "http://example.com/api/data", hostname := "example.com"
  , pathname := "/api/data", accept := none }

/-- A cache state whose only entry is a JSON response stored under "/". -/
def csRootJson : CacheState := [(CACHE_NAME, [("/", jsonRootResponse)])]

/-- An install-time network oracle that fails for URL "b" only. -/
def installOracle : String → FetchOutcome :=
  fun u => if u = "b" then .networkError else .success respOkA

/-- A prime-store oracle where "a" fails and "b" would succeed. -/
def primeOracle : String → FetchOutcome :=
  fun u => if u = "b" then .success respOkB else .networkError

/-! Helper lemmas about the cache model. -/

theorem storeMatch_cons_self (es : Store) (u : String) (r : Response) :
    storeMatch ((u, r) :: es) u = some r := by
  simp [storeMatch]

theorem storeMatch_cons_ne (es : Store) (u v : String) (r : Response)
    (h : u ≠ v) : storeMatch ((u, r) :: es) v = storeMatch es v := by
  simp [storeMatch, h]

theorem storeMatch_mem {es : Store} {k : String} {r : Response}
    (h : storeMatch es k = some r) : (k, r) ∈ es := by
  induction es with
  | nil => simp [storeMatch] at h
  | cons p rest ih =>
    obtain ⟨k', r'⟩ := p
    by_cases hk : k' = k
    · subst hk
      simp [storeMatch] at h
      simp [h]
    · rw [storeMatch_cons_ne rest k' k r' hk] at h
      exact List.mem_cons_of_mem _ (ih h)

theorem cachesMatch_mem {cs : CacheState} {k : String} {r : Response}
    (h : cachesMatch cs k = some r) : ∃ p ∈ cs, (k, r) ∈ p.2 := by
  induction cs with
  | nil => simp [cachesMatch] at h
  | cons p rest ih =>
    obtain ⟨n, es⟩ := p
    rw [cachesMatch] at h
    cases hs : storeMatch es k with
    | some r' =>
      rw [hs] at h
      cases h
      exact ⟨(n, es), by simp, storeMatch_mem hs⟩
    | none =>
      rw [hs] at h
      obtain ⟨q, hq, hm⟩ := ih h
      exact ⟨q, List.mem_cons_of_mem _ hq, hm⟩

theorem cachesMatch_cons_none {n : String} {es : Store} {rest : CacheState}
    {k : String} (h : cachesMatch ((n, es) :: rest) k = none) :
    storeMatch es k = none ∧ cachesMatch rest k = none := by
  rw [cachesMatch] at h
  cases hs : storeMatch es k with
  | some r' => rw [hs] at h; cases h
  | none => rw [hs] at h; exact ⟨rfl, h⟩

theorem cachesMatch_cachePut_of_miss {cs : CacheState} {url : String}
    (name : String) (r : Response) (h : cachesMatch cs url = none) :
    cachesMatch (cachePut cs name url r) url = some r := by
  induction cs with
  | nil => simp [cachePut, cachesMatch, storeMatch]
  | cons p rest ih =>
    obtain ⟨n, es⟩ := p
    obtain ⟨hes, hrest⟩ := cachesMatch_cons_none h
    by_cases hn : n = name
    · subst hn
      simp [cachePut, cachesMatch, storeMatch_cons_self]
    · rw [cachePut, if_neg hn, cachesMatch, hes]
      exact ih hrest

theorem openCache_setCache (cs : CacheState) (name : String) (es : Store) :
    openCache (setCache cs name es) name = es := by
  induction cs with
  | nil => simp [setCache, openCache]
  | cons p rest ih =>
    obtain ⟨n, e⟩ := p
    by_cases h : n = name
    · subst h; simp [setCache, openCache]
    · rw [setCache, if_neg h, openCache, if_neg h]
      exact ih

theorem storeAllOk_cachePut (name key : String) {r : Response}
    (hr : r.ok = true) :
    ∀ cs : CacheState, storeAllOk cs → storeAllOk (cachePut cs name key r) := by
  intro cs
  induction cs with
  | nil =>
    intro _ p hp q hq
    simp [cachePut] at hp
    subst hp
    simp at hq
    subst hq
    exact hr
  | cons e rest ih =>
    obtain ⟨n, es⟩ := e
    intro hcs
    have hrest : storeAllOk rest :=
      fun p hp q hq => hcs p (List.mem_cons_of_mem _ hp) q hq
    have hhead : ∀ q ∈ es, Response.ok q.2 = true :=
      fun q hq => hcs (n, es) (List.mem_cons_self _ _) q hq
    by_cases hn : n = name
    · subst hn
      rw [cachePut, if_pos rfl]
      intro p hp q hq
      rcases List.mem_cons.mp hp with rfl | hp'
      · rcases List.mem_cons.mp hq with rfl | hq'
        · exact hr
        · exact hhead q hq'
      · exact hrest p hp' q hq
    · rw [cachePut, if_neg hn]
      intro p hp q hq
      rcases List.mem_cons.mp hp with rfl | hp'
      · exact hhead q hq
      · exact ih hrest p hp' q hq

theorem precacheLoop_stores (oracle : String → FetchOutcome) {u : String}
    {r : Response} (hu : oracle u = .success r) (hok : r.ok = true) :
    ∀ (urls : List String) (store : Store),
      (u ∈ urls ∨ storeMatch store u = some r) →
      storeMatch (precacheLoop oracle store urls) u = some r := by
  intro urls
  induction urls with
  | nil =>
    intro store h
    rcases h with h | h
    · cases h
    · simpa [precacheLoop] using h
  | cons v rest ih =>
    intro store h
    by_cases hv : v = u
    · subst hv
      simp only [precacheLoop, cacheAdd, hu, hok, if_pos]
      exact ih _ (Or.inr (storeMatch_cons_self store v r))
    · have h' : u ∈ rest ∨ storeMatch store u = some r := by
        rcases h with h | h
        · rcases List.mem_cons.mp h with h1 | h1
          · exact absurd h1.symm hv
          · exact Or.inl h1
        · exact Or.inr h
      cases ho : oracle v with
      | success r' =>
        by_cases hok' : r'.ok = true
        · simp only [precacheLoop, cacheAdd, ho, hok', if_pos]
          apply ih
          rcases h' with h1 | h1
          · exact Or.inl h1
          · exact Or.inr (by rw [storeMatch_cons_ne store v u r' hv]; exact h1)
        · simp only [precacheLoop, cacheAdd, ho, hok', Bool.false_eq_true,
            if_false]
          exact ih _ h'
      | networkError =>
        simp only [precacheLoop, cacheAdd, ho]
        exact ih _ h'

theorem cacheAddAllFetch_none {oracle : String → FetchOutcome}
    {urls : List String} (h : ∃ u ∈ urls, fetchFails (oracle u) = true) :
    cacheAddAllFetch oracle urls = none := by
  induction urls with
  | nil => simp at h
  | cons v rest ih =>
    obtain ⟨u, hu, hf⟩ := h
    rcases List.mem_cons.mp hu with rfl | hmem
    · cases ho : oracle u with
      | success r =>
        rw [ho] at hf
        simp only [fetchFails, Bool.not_eq_true'] at hf
        simp [cacheAddAllFetch, ho, hf]
      | networkError => simp [cacheAddAllFetch, ho]
    · cases ho : oracle v with
      | success r =>
        by_cases hok : r.ok = true
        · simp [cacheAddAllFetch, ho, hok, ih ⟨u, hmem, hf⟩]
        · simp [cacheAddAllFetch, ho, hok]
      | networkError => simp [cacheAddAllFetch, ho]

theorem cacheAddAllFetch_isSome {oracle : String → FetchOutcome} :
    ∀ {urls : List String}, (∀ u ∈ urls, fetchFails (oracle u) = false) →
      (cacheAddAllFetch oracle urls).isSome = true := by
  intro urls
  induction urls with
  | nil => intro _; simp [cacheAddAllFetch]
  | cons v rest ih =>
    intro hall
    have hv := hall v (List.mem_cons_self v rest)
    cases ho : oracle v with
    | success r =>
      rw [ho] at hv
      have hok : r.ok = true := by simpa [fetchFails] using hv
      have := ih (fun u hu => hall u (List.mem_cons_of_mem v hu))
      cases hrest : cacheAddAllFetch oracle rest with
      | some ps => simp [cacheAddAllFetch, ho, hok, hrest]
      | none => rw [hrest] at this; simp at this
    | networkError => rw [ho] at hv; simp [fetchFails] at hv

theorem cacheAddAllFetch_mem_pairs {oracle : String → FetchOutcome} :
    ∀ {urls : List String} {ps : List (String × Response)},
      cacheAddAllFetch oracle urls = some ps →
      ∀ q ∈ ps, oracle q.1 = .success q.2 ∧ q.2.ok = true := by
  intro urls
  induction urls with
  | nil =>
    intro ps h q hq
    simp [cacheAddAllFetch] at h
    subst h
    cases hq
  | cons v rest ih =>
    intro ps h q hq
    cases ho : oracle v with
    | success r =>
      by_cases hok : r.ok = true
      · cases hrest : cacheAddAllFetch oracle rest with
        | some ps' =>
          simp only [cacheAddAllFetch, ho, hok, if_true, hrest,
            Option.some.injEq] at h
          subst h
          rcases List.mem_cons.mp hq with rfl | hq'
          · exact ⟨ho, hok⟩
          · exact ih hrest q hq'
        | none =>
          simp [cacheAddAllFetch, ho, hok, hrest] at h
      · simp [cacheAddAllFetch, ho, hok] at h
    | networkError =>
      simp [cacheAddAllFetch, ho] at h

theorem cacheAddAllFetch_covers {oracle : String → FetchOutcome} :
    ∀ {urls : List String} {ps : List (String × Response)},
      cacheAddAllFetch oracle urls = some ps →
      ∀ u ∈ urls, ∃ r, oracle u = .success r ∧ (u, r) ∈ ps := by
  intro urls
  induction urls with
  | nil => intro ps _ u hu; cases hu
  | cons v rest ih =>
    intro ps h u hu
    cases ho : oracle v with
    | success r =>
      by_cases hok : r.ok = true
      · cases hrest : cacheAddAllFetch oracle rest with
        | some ps' =>
          simp only [cacheAddAllFetch, ho, hok, if_true, hrest,
            Option.some.injEq] at h
          subst h
          rcases List.mem_cons.mp hu with rfl | hu'
          · exact ⟨r, ho, List.mem_cons_self _ _⟩
          · obtain ⟨r', hr', hm⟩ := ih hrest u hu'
            exact ⟨r', hr', List.mem_cons_of_mem _ hm⟩
        | none =>
          simp [cacheAddAllFetch, ho, hok, hrest] at h
      · simp [cacheAddAllFetch, ho, hok] at h
    | networkError =>
      simp [cacheAddAllFetch, ho] at h

theorem storeMatch_foldl_prepend {u : String} {r : Response} :
    ∀ (ps : List (String × Response)) (es : Store),
      (∀ q ∈ ps, q.1 = u → q.2 = r) →
      ((u, r) ∈ ps ∨ storeMatch es u = some r) →
      storeMatch (ps.foldl (fun s q => q :: s) es) u = some r := by
  intro ps
  induction ps with
  | nil =>
    intro es _ h
    rcases h with h | h
    · cases h
    · simpa using h
  | cons q ps' ih =>
    intro es hall h
    rw [List.foldl_cons]
    by_cases hq : q.1 = u
    · have hq2 : q.2 = r := hall q (List.mem_cons_self _ _) hq
      apply ih
      · intro p hp hpu; exact hall p (List.mem_cons_of_mem _ hp) hpu
      · refine Or.inr ?_
        have : q = (u, r) := Prod.ext hq hq2
        rw [this]
        exact storeMatch_cons_self es u r
    · apply ih
      · intro p hp hpu; exact hall p (List.mem_cons_of_mem _ hp) hpu
      · rcases h with h | h
        · rcases List.mem_cons.mp h with h1 | h1
          · exact absurd (by rw [← h1]) hq
          · exact Or.inl h1
        · refine Or.inr ?_
          have : storeMatch (q :: es) u = storeMatch es u := by
            obtain ⟨q1, q2⟩ := q
            exact storeMatch_cons_ne es q1 u q2 hq
          rw [this]
          exact h

/-! Claim theorems. -/

/-- C5: for every request handled by the cache-first executor whose store
lookup hits, the executor returns the stored response unchanged, leaves the
cache state untouched, and performs zero network fetches, whatever the
network would have answered. -/
theorem cacheFirst_hit_no_network (cs : CacheState) (name url : String)
    (netw : FetchOutcome) (c : Response)
    (h : cachesMatch cs url = some c) :
    cacheFirst cs name url netw = ⟨c, cs, 0⟩ := by
  simp [cacheFirst, h]

/-- Witness for C5: a concrete font request already stored under CACHE_NAME
is served from the store with zero network calls even though the network
would have errored. -/
theorem cacheFirst_hit_no_network_witness :
    cacheFirst [(CACHE_NAME, [("https://fonts.gstatic.com/f.woff2", respOkA)])]
      CACHE_NAME "https://fonts.gstatic.com/f.woff2" .networkError =
      ⟨respOkA, [(CACHE_NAME, [("https://fonts.gstatic.com/f.woff2", respOkA)])], 0⟩ :=
  cacheFirst_hit_no_network
    [(CACHE_NAME, [("https://fonts.gstatic.com/f.woff2", respOkA)])]
    CACHE_NAME "https://fonts.gstatic.com/f.woff2" .networkError respOkA
    (by decide)

/-- C10: in the network-first executor a non-2xx network response is
returned to the caller exactly as received, with the cache state unchanged
(no store write, no store fallback); only a thrown network error runs the
fallback path. -/
theorem networkFirst_non2xx_passthrough (cs : CacheState) (name url : String)
    (r : Response) (h : r.ok = false) :
    networkFirst cs name url (.success r) = ⟨r, cs, 1⟩ := by
  simp [networkFirst, h]

/-- Witness for C10: a concrete 404 network response is handed back verbatim
by the network-first executor with no state change. -/
theorem networkFirst_non2xx_passthrough_witness :
    networkFirst [] CACHE_NAME "http://example.com/page" (.success resp404) =
      ⟨resp404, [], 1⟩ :=
  networkFirst_non2xx_passthrough [] CACHE_NAME "http://example.com/page"
    resp404 (by decide)

/-- C4: shared store-write invariant: when the network response is non-2xx,
none of the three strategy executors changes the cache state, so an error
response is never written to any store. -/
theorem no_store_write_on_non2xx (cs : CacheState) (name url : String)
    (r : Response) (h : r.ok = false) :
    (cacheFirst cs name url (.success r)).state = cs ∧
    (networkFirst cs name url (.success r)).state = cs ∧
    (staleWhileRevalidate cs name url (.success r)).state = cs := by
  refine ⟨?_, ?_, ?_⟩
  · unfold cacheFirst
    cases hm : cachesMatch cs url <;> simp [hm, h]
  · simp [networkFirst, h]
  · unfold staleWhileRevalidate
    cases hm : storeMatch (openCache cs name) url <;> simp [hm, h]

/-- Witness for C4: a concrete 404 response leaves a concrete cache state
untouched under all three strategies. -/
theorem no_store_write_on_non2xx_witness :
    (cacheFirst csRootJson CACHE_NAME "http://example.com/a" (.success resp404)).state = csRootJson ∧
    (networkFirst csRootJson CACHE_NAME "http://example.com/a" (.success resp404)).state = csRootJson ∧
    (staleWhileRevalidate csRootJson CACHE_NAME "http://example.com/a" (.success resp404)).state = csRootJson :=
  no_store_write_on_non2xx csRootJson CACHE_NAME "http://example.com/a"
    resp404 (by decide)

/-- C6: in the stale-while-revalidate executor, when the named store holds
an entry for the request, the returned response is that stored entry and one
network fetch is still issued, for every possible outcome of that fetch
(2xx, non-2xx, or thrown error) — the background outcome never changes or
fails the response handed to the caller. -/
theorem swr_hit_returns_cached (cs : CacheState) (name url : String)
    (c : Response) (h : storeMatch (openCache cs name) url = some c)
    (netw : FetchOutcome) :
    (staleWhileRevalidate cs name url netw).response = c ∧
    (staleWhileRevalidate cs name url netw).networkCalls = 1 := by
  unfold staleWhileRevalidate
  cases netw <;> simp [h]

/-- Witness for C6: a concrete stored script is returned unchanged while the
background fetch comes back 404. -/
theorem swr_hit_returns_cached_witness :
    (staleWhileRevalidate [(RUNTIME_CACHE, [("http://example.com/app.js", respOkB)])]
      RUNTIME_CACHE "http://example.com/app.js" (.success resp404)).response = respOkB ∧
    (staleWhileRevalidate [(RUNTIME_CACHE, [("http://example.com/app.js", respOkB)])]
      RUNTIME_CACHE "http://example.com/app.js" (.success resp404)).networkCalls = 1 :=
  swr_hit_returns_cached
    [(RUNTIME_CACHE, [("http://example.com/app.js", respOkB)])]
    RUNTIME_CACHE "http://example.com/app.js" respOkB (by decide)
    (.success resp404)

/-- C1 counterexample: on a store miss with a non-2xx network response the
cache-first executor does not synthesize the 503 "Offline" response — it
returns the 404 exactly as received, so the claimed behaviour that a
non-2xx fetch yields the synthesized offline response is false. -/
theorem cacheFirst_non2xx_counterexample :
    (cacheFirst [] CACHE_NAME "http://example.com/f.woff2" (.success resp404)).response = resp404 ∧
    resp404.status = 404 ∧
    (cacheFirst [] CACHE_NAME "http://example.com/f.woff2" (.success resp404)).response ≠ cacheFirstOffline := by
  refine ⟨rfl, rfl, ?_⟩
  decide

/-- C1 amended: on a store miss, a 2xx fetch is stored and returned; a
non-2xx response is returned exactly as received with no store write; only
a thrown network error yields the synthesized 503 "Offline" response, so
the raw network error never reaches the caller. -/
theorem cacheFirst_miss_behavior (cs : CacheState) (name url : String)
    (hmiss : cachesMatch cs url = none) :
    (∀ r : Response, (cacheFirst cs name url (.success r)).response = r) ∧
    (∀ r : Response, r.ok = true →
      (cacheFirst cs name url (.success r)).state = cachePut cs name url r ∧
      cachesMatch (cacheFirst cs name url (.success r)).state url = some r) ∧
    (∀ r : Response, r.ok = false →
      (cacheFirst cs name url (.success r)).state = cs) ∧
    (cacheFirst cs name url .networkError).response = cacheFirstOffline := by
  refine ⟨?_, ?_, ?_, ?_⟩
  · intro r
    simp [cacheFirst, hmiss]
  · intro r hok
    refine ⟨by simp [cacheFirst, hmiss, hok], ?_⟩
    have hst : (cacheFirst cs name url (.success r)).state = cachePut cs name url r := by
      simp [cacheFirst, hmiss, hok]
    rw [hst]
    exact cachesMatch_cachePut_of_miss name r hmiss
  · intro r hok
    simp [cacheFirst, hmiss, hok]
  · simp [cacheFirst, hmiss]

/-- Witness for C1 amended: on an empty cache a thrown fetch yields the
synthesized 503 "Offline" response. -/
theorem cacheFirst_miss_behavior_witness :
    (cacheFirst [] CACHE_NAME "http://example.com/f.woff2" .networkError).response = cacheFirstOffline :=
  (cacheFirst_miss_behavior [] CACHE_NAME "http://example.com/f.woff2" rfl).2.2.2

/-- C2 counterexample: a request with no Accept header and a non-asset path
is classified default and still routed to network-first; with the network
down and an empty cache it receives the generated offline HTML page with
status 200, not a service-unavailable response — the claimed
service-unavailable answer for non-document requests is false. -/
theorem networkFirst_nondocument_counterexample :
    classify reqDataDefault = .default ∧
    routeFetch reqDataDefault [] .networkError =
      some ⟨offlinePageResponse, [], 1⟩ ∧
    offlinePageResponse.status = 200 ∧
    offlinePageResponse.status ≠ 503 := by
  refine ⟨rfl, rfl, rfl, ?_⟩
  decide

/-- C2 amended: in the network-first executor, when the fetch throws and the
store lookup misses, the executor returns the stored root document "/" if
one exists and otherwise the generated offline HTML page — for every
request, document-classified or not; no service-unavailable response is
produced on this path. -/
theorem networkFirst_fallback_chain (cs : CacheState) (name url : String)
    (hmiss : cachesMatch cs url = none) :
    (∀ fb : Response, cachesMatch cs "/" = some fb →
      (networkFirst cs name url .networkError).response = fb) ∧
    (cachesMatch cs "/" = none →
      (networkFirst cs name url .networkError).response = offlinePageResponse) := by
  constructor
  · intro fb hfb
    simp [networkFirst, hmiss, hfb]
  · intro hroot
    simp [networkFirst, hmiss, hroot]

/-- Witness for C2 amended: on an empty cache the executor produces the
generated offline page. -/
theorem networkFirst_fallback_chain_witness :
    (networkFirst [] RUNTIME_CACHE "http://example.com/api/data" .networkError).response = offlinePageResponse :=
  (networkFirst_fallback_chain [] RUNTIME_CACHE "http://example.com/api/data" rfl).2 rfl

/-- C3 counterexample: priming the runtime store with ["a", "b"] where the
fetch of "a" throws and the fetch of "b" would succeed with a 2xx stores
nothing at all — "b" is not stored, so the claimed per-URL failure
tolerance of the CACHE_URLS command is false. -/
theorem cacheUrls_partial_failure_counterexample :
    primeOracle "b" = .success respOkB ∧
    Response.ok respOkB = true ∧
    fetchFails (primeOracle "a") = true ∧
    handleCacheUrls [] primeOracle ["a", "b"] = [] ∧
    storeMatch (openCache (handleCacheUrls [] primeOracle ["a", "b"]) RUNTIME_CACHE) "b" = none := by
  refine ⟨rfl, rfl, rfl, rfl, rfl⟩

/-- C3 amended: the CACHE_URLS command delegates to the atomic batch add
of the store, which is all-or-nothing rather than per-URL tolerant: if the
fetch of any listed URL throws or returns non-2xx the whole batch is rejected
and the cache state is unchanged (no URL is stored); only when every fetch
succeeds with a 2xx is each URL stored under the runtime store name. -/
theorem cacheUrls_all_or_nothing (cs : CacheState)
    (oracle : String → FetchOutcome) (urls : List String) :
    ((∃ u ∈ urls, fetchFails (oracle u) = true) →
      handleCacheUrls cs oracle urls = cs) ∧
    ((∀ u ∈ urls, fetchFails (oracle u) = false) →
      ∀ u ∈ urls, ∀ r : Response, oracle u = .success r →
        storeMatch (openCache (handleCacheUrls cs oracle urls) RUNTIME_CACHE) u = some r) := by
  constructor
  · intro h
    rw [handleCacheUrls, cacheAddAll, cacheAddAllFetch_none h]
  · intro hall u hu r hr
    cases hps : cacheAddAllFetch oracle urls with
    | none =>
      have := cacheAddAllFetch_isSome hall
      rw [hps] at this
      simp at this
    | some ps =>
      rw [handleCacheUrls, cacheAddAll, hps]
      simp only [openCache_setCache]
      apply storeMatch_foldl_prepend
      · intro q hq hq1
        have hqo := (cacheAddAllFetch_mem_pairs hps q hq).1
        rw [hq1, hr] at hqo
        exact (FetchOutcome.success.inj hqo).symm
      · left
        obtain ⟨r', hr', hm⟩ := cacheAddAllFetch_covers hps u hu
        rw [hr] at hr'
        rw [FetchOutcome.success.inj hr']
        exact hm

/-- Witness for C3 amended: a batch whose only fetch throws leaves
an empty cache state unchanged, and a batch whose URLs all succeed stores
them. -/
theorem cacheUrls_all_or_nothing_witness :
    handleCacheUrls [] (fun _ => .networkError) ["a"] = [] ∧
    storeMatch (openCache (handleCacheUrls [] (fun _ => .success respOkB) ["a"]) RUNTIME_CACHE) "a" = some respOkB := by
  constructor
  · exact (cacheUrls_all_or_nothing [] (fun _ => .networkError) ["a"]).1
      ⟨"a", by decide, rfl⟩
  · exact (cacheUrls_all_or_nothing [] (fun _ => .success respOkB) ["a"]).2
      (by intro u hu; rfl) "a" (by decide) respOkB rfl

/-- C7: cutover is idempotent — after one activate pass (which keeps
exactly the current-generation store names CACHE_NAME and RUNTIME_CACHE),
running the activate handler again on the resulting state deletes zero
stores. -/
theorem cutover_idempotent (cs : CacheState) :
    (activateHandler (activateHandler cs).state).deleted = [] := by
  rw [activateHandler, activateHandler]
  simp only []
  rw [List.filter_eq_nil_iff]
  intro a ha
  obtain ⟨p, hp, rfl⟩ := List.mem_map.mp ha
  have hkeep := (List.mem_filter.mp hp).2
  simp only [Bool.not_eq_true'] at hkeep
  simp [hkeep]

/-- C8: precache tolerates per-URL failure: for every manifest and every
network oracle, each URL whose fetch succeeds with a 2xx ends up stored
under CACHE_NAME regardless of how the other URLs fail, and the readiness
(skip-waiting) signal is issued unconditionally. -/
theorem precache_partial_failure_tolerant (cs : CacheState)
    (oracle : String → FetchOutcome) (urls : List String) (u : String)
    (r : Response) (hmem : u ∈ urls) (hu : oracle u = .success r)
    (hok : r.ok = true) :
    storeMatch (openCache (precacheOp cs oracle urls).state CACHE_NAME) u = some r ∧
    (precacheOp cs oracle urls).skipWaitingSignalled = true := by
  constructor
  · rw [precacheOp]
    simp only [openCache_setCache]
    exact precacheLoop_stores oracle hu hok urls _ (Or.inl hmem)
  · rfl

/-- Witness for C8: a manifest of three URLs where the middle fetch throws
still stores the first URL and signals skip-waiting. -/
theorem precache_partial_failure_tolerant_witness :
    storeMatch (openCache (precacheOp [] installOracle ["a", "b", "c"]).state CACHE_NAME) "a" = some respOkA ∧
    (precacheOp [] installOracle ["a", "b", "c"]).skipWaitingSignalled = true :=
  precache_partial_failure_tolerant [] installOracle ["a", "b", "c"] "a"
    respOkA (by decide) (by decide) (by decide)

/-- C9 counterexample: with a 200 application/json response stored under
"/", a document-classified request whose fetch throws and whose own store
lookup misses is answered with that JSON response, whose content type does
not indicate an HTML document — the claimed HTML content type is false for
the cached-root branch. -/
theorem offline_fallback_content_type_counterexample :
    classify reqDocument = .document ∧
    cachesMatch csRootJson reqDocument.url = none ∧
    (networkFirst csRootJson CACHE_NAME reqDocument.url .networkError).response = jsonRootResponse ∧
    (networkFirst csRootJson CACHE_NAME reqDocument.url .networkError).response.contentType ≠ some "text/html" := by
  refine ⟨rfl, rfl, rfl, ?_⟩
  decide

set_option maxRecDepth 100000 in
/-- C9 amended: for a document-classified request where both the fetch and
the store lookup fail, provided every stored response is a 2xx (the
invariant all store-write paths maintain), the produced response has a
success status; when no root document is cached the response is the
generated offline page, whose declared content type is text/html and which
is a fixed document containing no external resource references; a cached
root document is returned with whatever content type it was stored with. -/
theorem document_offline_fallback_ok (cs : CacheState) (req : Request)
    (_hdoc : classify req = .document) (hok : storeAllOk cs)
    (hmiss : cachesMatch cs req.url = none) :
    (networkFirst cs CACHE_NAME req.url .networkError).response.ok = true ∧
    (cachesMatch cs "/" = none →
      (networkFirst cs CACHE_NAME req.url .networkError).response = offlinePageResponse) ∧
    offlinePageResponse.status = 200 ∧
    offlinePageResponse.contentType = some "text/html" ∧
    noExternalRefs offlinePage = true := by
  refine ⟨?_, ?_, rfl, rfl, by decide⟩
  · cases hroot : cachesMatch cs "/" with
    | some fb =>
      have hres : (networkFirst cs CACHE_NAME req.url .networkError).response = fb := by
        simp [networkFirst, hmiss, hroot]
      rw [hres]
      obtain ⟨p, hp, hm⟩ := cachesMatch_mem hroot
      exact hok p hp _ hm
    | none =>
      have hres : (networkFirst cs CACHE_NAME req.url .networkError).response = offlinePageResponse := by
        simp [networkFirst, hmiss, hroot]
      rw [hres]
      rfl
  · intro hroot
    simp [networkFirst, hmiss, hroot]

/-- Witness for C9 amended: on an empty cache a concrete document request
with the network down gets a 2xx response. -/
theorem document_offline_fallback_ok_witness :
    (networkFirst [] CACHE_NAME reqDocument.url .networkError).response.ok = true :=
  (document_offline_fallback_ok [] reqDocument rfl
    (by intro p hp; cases hp) rfl).1

end SW
